import Mathlib

/-!
Shallow embedding of the Evrlink client-side session / request subsystem.

Sources embedded (TypeScript):
- `src/utils/api.ts` — retry-wrapped request client (`fetchWithRetry`,
  `getAuthHeaders`, `authenticatedFetch`) and the profile facade
  (`getUserProfile` with its mock-data fallback).
- `src/lib/wallet.ts` — wallet connector (`getProvider`, `connectWallet`,
  `disconnectWallet`) and the local-storage effects of its event handlers.
- `src/contexts/WalletContext.tsx` — session store (`connect`, `disconnect`,
  `getToken`).
- `src/hooks/useUserData.ts` — joint fetch of profile / inventory / activity
  (`fetchUserData`).

Browser local storage is modelled as a pair of optional strings (the two keys
`token` and `walletAddress`); the network is modelled by a function mapping
the index of each fetch attempt to that attempt's outcome.
-/

namespace Evrlink

/-- The two local-storage keys the app uses as its session state:
`token` and `walletAddress`, each either absent (`none`) or a string. -/
structure Storage where
  token : Option String
  walletAddress : Option String
deriving DecidableEq, Repr

/-- Local storage with both session keys absent: the disconnected state. -/
def clearedStorage : Storage := { token := none, walletAddress := none }

/-- JSON body of a profile response, as read by `getUserProfile` in
`src/utils/api.ts` (each field may be missing / `undefined`). -/
structure ProfileJson where
  id : Option String
  walletAddress : Option String
  username : Option String
  bio : Option String
  profileImageUrl : Option String
  totalGiftCardsCreated : Option Nat
  totalGiftCardsSent : Option Nat
  totalGiftCardsReceived : Option Nat
  totalBackgroundsMinted : Option Nat
deriving DecidableEq, Repr

/-- A `fetch` response: the `ok` flag (2xx), the numeric `status`, and the
body as far as `response.json()` can parse it (`none` = parse failure or no
JSON body, in which case `response.json()` raises). -/
structure Response where
  ok : Bool
  status : Nat
  jsonBody : Option ProfileJson
deriving DecidableEq, Repr

/-- Outcome of one call of the browser `fetch`: a settled response, or a
rejected promise (network error). -/
inductive FetchOutcome where
  | resp (r : Response)
  | netError
deriving DecidableEq, Repr

/-- What `fetchWithRetry` delivers to its caller: a returned response or a
propagated exception. -/
inductive FetchResult where
  | returned (r : Response)
  | thrown
deriving DecidableEq, Repr

/-- `MAX_RETRIES` from `src/utils/api.ts`. -/
def MAX_RETRIES : Nat := 3

/-- `RETRY_DELAY` (milliseconds) from `src/utils/api.ts`. -/
def RETRY_DELAY : Nat := 1000

/-- `fetchWithRetry(url, options, retries)` from `src/utils/api.ts`.
The network is modelled by `f`, mapping the index of an attempt to its
outcome; `k` is the index of the current attempt and the first argument the
remaining retry budget.  The source guards each recursive call with
`retries > 0`, which the two match arms `0` / `retries + 1` mirror; on a
non-`ok` response whose status is not 404, and on a network error, it waits
`RETRY_DELAY` and recurses with `retries - 1`; a 404 (or any `ok`) response
is returned at once, and with the budget exhausted the last response is
returned (or the last network error rethrown).  The value is the triple of
the total number of `fetch` calls made, the total milliseconds spent in
`delay`, and the final result. -/
def fetchWithRetry (f : Nat → FetchOutcome) : Nat → Nat → Nat × Nat × FetchResult
  | 0, k =>
    match f k with
    | FetchOutcome.resp r => (1, 0, FetchResult.returned r)
    | FetchOutcome.netError => (1, 0, FetchResult.thrown)
  | retries + 1, k =>
    match f k with
    | FetchOutcome.resp r =>
      if !r.ok && r.status != 404 then
        let rest := fetchWithRetry f retries (k + 1)
        (rest.1 + 1, rest.2.1 + RETRY_DELAY, rest.2.2)
      else (1, 0, FetchResult.returned r)
    | FetchOutcome.netError =>
      let rest := fetchWithRetry f retries (k + 1)
      (rest.1 + 1, rest.2.1 + RETRY_DELAY, rest.2.2)

/-- `fetchWithRetry` as invoked by every caller in the source: with the
default budget `MAX_RETRIES`, starting at attempt 0. -/
def fetchWithRetryRun (f : Nat → FetchOutcome) : Nat × Nat × FetchResult :=
  fetchWithRetry f MAX_RETRIES 0

/-- The retry condition of `fetchWithRetry`: a non-`ok` response other than
404, or a network error. -/
def shouldRetry : FetchOutcome → Bool
  | FetchOutcome.resp r => !r.ok && r.status != 404
  | FetchOutcome.netError => true

/-- `connect(newAddress)` from `src/contexts/WalletContext.tsx`, as it acts
on local storage.  An empty address (`!newAddress`) raises before anything is
written; otherwise the token is the deterministic string
`web3auth_` + address and both keys are written.  (Nothing inside the
source's `try` block can raise, so its clearing `catch` path is dead code.) -/
def connect (newAddress : String) (_st : Storage) : Except String Storage :=
  if newAddress = "" then Except.error "Invalid wallet address"
  else
    Except.ok { token := some ("web3auth_" ++ newAddress)
                walletAddress := some newAddress }

/-- `getToken()` from `src/contexts/WalletContext.tsx`: reads the `token`
key. -/
def getToken (st : Storage) : Option String := st.token

/-- `disconnect()` from `src/contexts/WalletContext.tsx`: removes both
local-storage keys. -/
def disconnect (_st : Storage) : Storage :=
  { token := none, walletAddress := none }

/-- `disconnectWallet()` from `src/lib/wallet.ts`: removes both keys (and
then reloads the page, which does not touch storage). -/
def disconnectWallet (_st : Storage) : Storage :=
  { token := none, walletAddress := none }

/-- Outcome of `ethereum.request({method: 'eth_requestAccounts'})`: a list of
accounts, or a rejection carrying a numeric code and a message. -/
inductive RequestOutcome where
  | accounts (accts : List String)
  | rejected (code : Int) (msg : String)
deriving DecidableEq, Repr

/-- The injected wallet object (`window.ethereum`): its identifying flags and
the behaviour of its account request. -/
structure Provider where
  isMetaMask : Bool
  isCoinbaseWallet : Bool
  requestAccounts : RequestOutcome
deriving DecidableEq, Repr

/-- `getProvider(walletType)` from `src/lib/wallet.ts`.  `eth` is
`window.ethereum` (`none` = no injected provider).  Returns the first
account on success, the raised error message on failure. -/
def getProvider (walletType : String) (eth : Option Provider) : Except String String :=
  match eth with
  | none => Except.error "No Web3 provider found. Please install a wallet."
  | some p =>
    if walletType == "metamask" && !p.isMetaMask then
      Except.error "Please install MetaMask to continue."
    else if walletType == "coinbase" && !p.isCoinbaseWallet then
      Except.error "Please install Coinbase Wallet to continue."
    else
      match p.requestAccounts with
      | RequestOutcome.accounts [] =>
        Except.error "No accounts found. Please unlock your wallet."
      | RequestOutcome.accounts (a :: _) => Except.ok a
      | RequestOutcome.rejected code msg =>
        if code = 4001 then
          Except.error "Please accept the connection request in your wallet."
        else if code = -32002 then
          Except.error "Wallet is already processing a request. Please check your wallet extension."
        else Except.error msg

/-- `connectWallet(walletId)` from `src/lib/wallet.ts`, together with its
effect on local storage.  The function itself performs no storage writes:
the only `localStorage` calls in its body sit inside the event handlers it
registers, which run when the corresponding events fire later (modelled by
`applyOp` below).  Its `catch` re-raises `error.message` with a fallback for
an empty message (JS `||`). -/
def connectWallet (walletId : String) (eth : Option Provider) (st : Storage) :
    Except String String × Storage :=
  match getProvider walletId eth with
  | Except.ok address => (Except.ok address, st)
  | Except.error msg =>
    (Except.error (if msg == "" then "Failed to connect wallet. Please try again." else msg), st)

/-- Does `pat` occur at the start of `text`? (plain character comparison) -/
def charsStartWith : List Char → List Char → Bool
  | [], _ => true
  | _ :: _, [] => false
  | p :: ps, c :: cs => p == c && charsStartWith ps cs

/-- Does `pat` occur anywhere inside the second list? -/
def charsContain (pat : List Char) : List Char → Bool
  | [] => charsStartWith pat []
  | c :: cs => charsStartWith pat (c :: cs) || charsContain pat cs

/-- Does the string `s` mention `pat` as a substring? -/
def strMentions (s pat : String) : Bool := charsContain pat.toList s.toList

/-- The session operations acting on local storage: the session store's
`connect` / `disconnect` (WalletContext.tsx) and the wallet event handlers
registered by `connectWallet` (wallet.ts): `accountsChanged` and
`disconnect`. -/
inductive SessionOp where
  | connectOp (address : String)
  | disconnectOp
  | accountsChangedOp (accounts : List String)
  | providerDisconnectOp
deriving DecidableEq, Repr

/-- One session operation's effect on local storage, read off the source.
The `accountsChanged` handler removes both keys when `accounts.length === 0`
and otherwise writes `accounts[0]` to `walletAddress` alone; the provider
`disconnect` handler removes both keys. -/
def applyOp (st : Storage) : SessionOp → Storage
  | SessionOp.connectOp a =>
    match connect a st with
    | Except.ok st₂ => st₂
    | Except.error _ => st
  | SessionOp.disconnectOp => disconnect st
  | SessionOp.accountsChangedOp [] => { token := none, walletAddress := none }
  | SessionOp.accountsChangedOp (a :: _) => { st with walletAddress := some a }
  | SessionOp.providerDisconnectOp => { token := none, walletAddress := none }

/-- Run a sequence of session operations from a starting storage state. -/
def runOps (st : Storage) (ops : List SessionOp) : Storage :=
  List.foldl applyOp st ops

/-- The pairing invariant of §3 of the design: the `token` key is present
exactly when the `walletAddress` key is. -/
def tokenAddrInvariant (st : Storage) : Prop :=
  st.token.isSome = st.walletAddress.isSome

/-- Session operations other than an `accountsChanged` event carrying a
non-empty account list. -/
def preservesPairing : SessionOp → Bool
  | SessionOp.accountsChangedOp (_ :: _) => false
  | _ => true

/-- JS string interpolation of a possibly-absent value: `undefined`/`null`
prints as the four letters `null` inside a template literal. -/
def jsInterp (v : Option String) : String :=
  match v with
  | some s => s
  | none => "null"

/-- Headers built by `getAuthHeaders()` in `src/utils/api.ts`:
`Authorization` is the template literal `Bearer ${token}` where `token` is
`localStorage.getItem('token')`. -/
structure Headers where
  authorization : String
  contentType : String
  accept : String
deriving DecidableEq, Repr

/-- `getAuthHeaders()` from `src/utils/api.ts`. -/
def getAuthHeaders (st : Storage) : Headers :=
  { authorization := "Bearer " ++ jsInterp st.token
    contentType := "application/json"
    accept := "application/json" }

/-- The `Authorization` value attached by `authenticatedFetch` in
`src/utils/api.ts`: `token ? ` + backtick-template + ` : ''`.  The guard is
JS truthiness, so both an absent token and a stored empty string are falsy
and yield the empty header value. -/
def authenticatedFetchAuthHeader (st : Storage) : String :=
  match st.token with
  | some t => if t = "" then "" else "Bearer " ++ t
  | none => ""

/-- The four activity counters of a profile. -/
structure UserStats where
  totalGiftCardsCreated : Nat
  totalGiftCardsSent : Nat
  totalGiftCardsReceived : Nat
  totalBackgroundsMinted : Nat
deriving DecidableEq, Repr

/-- `UserProfileData` from `src/utils/api.ts`. -/
structure UserProfileData where
  id : Option String
  walletAddress : String
  username : String
  bio : String
  profileImageUrl : String
  stats : UserStats
deriving DecidableEq, Repr

/-- The `ApiResponse` envelope from `src/utils/api.ts`. -/
structure ApiResponse (α : Type) where
  success : Bool
  data : Option α
  error : Option String
deriving DecidableEq, Repr

/-- The placeholder username `address.slice(0, 6) + '...' + address.slice(-4)`
built by `getUserProfile`. -/
def placeholderUsername (address : String) : String :=
  address.take 6 ++ "..." ++ address.takeRight 4

/-- JS `x || dflt` on a possibly-absent string (absent and `''` are falsy). -/
def jsOrStr (v : Option String) (dflt : String) : String :=
  match v with
  | some s => if s = "" then dflt else s
  | none => dflt

/-- JS `x || null` on a possibly-absent string. -/
def jsOrNullStr (v : Option String) : Option String :=
  match v with
  | some s => if s = "" then none else some s
  | none => none

/-- JS `x || 0` on a possibly-absent counter. -/
def jsOrNat (v : Option Nat) : Nat :=
  match v with
  | some n => n
  | none => 0

/-- The default profile `getUserProfile` fabricates for `address` on any
error (non-`ok` response or raised exception). -/
def defaultProfile (address : String) : UserProfileData :=
  { id := none
    walletAddress := address
    username := placeholderUsername address
    bio := ""
    profileImageUrl := ""
    stats := { totalGiftCardsCreated := 0
               totalGiftCardsSent := 0
               totalGiftCardsReceived := 0
               totalBackgroundsMinted := 0 } }

/-- The profile `getUserProfile` assembles from a parsed JSON body (each
field defaulted with JS `||`). -/
def parseProfile (address : String) (d : ProfileJson) : UserProfileData :=
  { id := jsOrNullStr d.id
    walletAddress := jsOrStr d.walletAddress address
    username := jsOrStr d.username (placeholderUsername address)
    bio := jsOrStr d.bio ""
    profileImageUrl := jsOrStr d.profileImageUrl ""
    stats := { totalGiftCardsCreated := jsOrNat d.totalGiftCardsCreated
               totalGiftCardsSent := jsOrNat d.totalGiftCardsSent
               totalGiftCardsReceived := jsOrNat d.totalGiftCardsReceived
               totalBackgroundsMinted := jsOrNat d.totalBackgroundsMinted } }

/-- `getUserProfile(address)` from `src/utils/api.ts`.  The preceding
`createUserIfNotExists` call catches every failure internally and its result
is ignored, so it is elided.  The profile fetch goes through
`fetchWithRetry`; a raised exception or a non-`ok` final response (or an
unparsable body) yields the fabricated default profile inside a *successful*
envelope. -/
def getUserProfile (address : String) (f : Nat → FetchOutcome) :
    ApiResponse UserProfileData :=
  match (fetchWithRetryRun f).2.2 with
  | FetchResult.thrown =>
    { success := true, data := some (defaultProfile address), error := none }
  | FetchResult.returned r =>
    if !r.ok then
      { success := true, data := some (defaultProfile address), error := none }
    else
      match r.jsonBody with
      | some d => { success := true, data := some (parseProfile address d), error := none }
      | none => { success := true, data := some (defaultProfile address), error := none }

/-- Inventory payload shape from `getUserInventory`. -/
structure InventoryData where
  nfts : List String
  giftCards : List String
  backgrounds : List String
deriving DecidableEq, Repr

/-- Activity payload shape from `getUserActivity`. -/
structure ActivityData where
  activities : List String
deriving DecidableEq, Repr

/-- The state held by the `useUserData` hook. -/
structure UserDataState where
  profile : Option UserProfileData
  inventory : Option InventoryData
  activities : List String
  isLoading : Bool
  error : Option String
deriving DecidableEq, Repr

/-- JS `a || b` on possibly-absent strings (absent and `''` are falsy). -/
def jsOrOpt (a b : Option String) : Option String :=
  match a with
  | some s => if s = "" then b else some s
  | none => b

/-- `new Error(x).message`: `undefined` gives the empty message. -/
def jsErrorMessage (v : Option String) : String := v.getD ""

/-- `fetchUserData` from `src/hooks/useUserData.ts`, applied to the state
`st` it starts from, the address, and the three jointly-awaited facade
results.  With no address it records an error and returns.  Otherwise it
first sets `isLoading` and clears `error`; if any result has
`success: false` it throws `new Error(profileRes.error || inventoryRes.error
|| activityRes.error)`, landing in the `catch`, which stores the message and
clears `isLoading`, leaving the data fields as they were; only with all
three successful does it publish the three payloads.  (On success it reads
`activityRes.data.activities`; a missing payload there would itself raise a
TypeError into the same `catch`.) -/
def fetchUserData (st : UserDataState) (address : Option String)
    (profileRes : ApiResponse UserProfileData)
    (inventoryRes : ApiResponse InventoryData)
    (activityRes : ApiResponse ActivityData) : UserDataState :=
  match address with
  | none => { st with error := some "No wallet address provided" }
  | some _ =>
    let st₁ : UserDataState := { st with isLoading := true, error := none }
    if profileRes.success && inventoryRes.success && activityRes.success then
      match activityRes.data with
      | some act =>
        { profile := profileRes.data
          inventory := inventoryRes.data
          activities := act.activities
          isLoading := false
          error := none }
      | none =>
        { st₁ with isLoading := false
                   error := some "Cannot read properties of undefined" }
    else
      { st₁ with isLoading := false
                 error := some (jsErrorMessage
                   (jsOrOpt (jsOrOpt profileRes.error inventoryRes.error) activityRes.error)) }

/-! ## Retry client lemmas -/

/-- The number of `fetch` calls never exceeds the budget plus the initial
attempt. -/
theorem fetchWithRetry_attempts_le (f : Nat → FetchOutcome) :
    ∀ retries k, (fetchWithRetry f retries k).1 ≤ retries + 1 := by
  intro retries
  induction retries with
  | zero =>
    intro k
    cases hf : f k <;> simp [fetchWithRetry, hf]
  | succ n ih =>
    intro k
    cases hf : f k with
    | resp r =>
      by_cases hc : (!r.ok && r.status != 404) = true
      · have := ih (k + 1)
        simp only [fetchWithRetry, hf, hc, if_true]
        omega
      · simp [fetchWithRetry, hf, hc]
    | netError =>
      have := ih (k + 1)
      simp only [fetchWithRetry, hf]
      omega

/-- With every attempt failing retryably, the budget is spent in full and a
delay is taken before each retry. -/
theorem fetchWithRetry_all_retry (f : Nat → FetchOutcome)
    (h : ∀ j, shouldRetry (f j) = true) :
    ∀ retries k, (fetchWithRetry f retries k).1 = retries + 1 ∧
      (fetchWithRetry f retries k).2.1 = retries * RETRY_DELAY := by
  intro retries
  induction retries with
  | zero =>
    intro k
    cases hf : f k <;> simp [fetchWithRetry, hf]
  | succ n ih =>
    intro k
    obtain ⟨ih1, ih2⟩ := ih (k + 1)
    cases hf : f k with
    | resp r =>
      have hc : (!r.ok && r.status != 404) = true := by
        have := h k
        rw [hf] at this
        exact this
      simp only [fetchWithRetry, hf, hc, if_true]
      rw [Nat.succ_mul]
      omega
    | netError =>
      simp only [fetchWithRetry, hf]
      rw [Nat.succ_mul]
      omega

/-- A 404 response is returned at once: one `fetch` call, no delay. -/
theorem fetchWithRetry_404_immediate (f : Nat → FetchOutcome) (r : Response)
    (k : Nat) (hf : f k = FetchOutcome.resp r) (h404 : r.status = 404) :
    ∀ retries, fetchWithRetry f retries k = (1, 0, FetchResult.returned r) := by
  intro retries
  cases retries with
  | zero => simp [fetchWithRetry, hf]
  | succ n => simp [fetchWithRetry, hf, h404]

/-- An exception escapes `fetchWithRetry` only when the final attempt was a
network error. -/
theorem fetchWithRetry_thrown_net (f : Nat → FetchOutcome) :
    ∀ retries k, (fetchWithRetry f retries k).2.2 = FetchResult.thrown →
      f (k + retries) = FetchOutcome.netError := by
  intro retries
  induction retries with
  | zero =>
    intro k h
    cases hf : f k with
    | resp r => simp [fetchWithRetry, hf] at h
    | netError => simpa using hf
  | succ n ih =>
    intro k h
    rw [show k + (n + 1) = (k + 1) + n from by omega]
    cases hf : f k with
    | resp r =>
      by_cases hc : (!r.ok && r.status != 404) = true
      · apply ih (k + 1)
        simpa [fetchWithRetry, hf, hc] using h
      · simp [fetchWithRetry, hf, hc] at h
    | netError =>
      apply ih (k + 1)
      simpa [fetchWithRetry, hf] using h

/-- With every attempt yielding a retryable HTTP error response, the final
attempt's response is what the caller receives. -/
theorem fetchWithRetry_last_resp (f : Nat → FetchOutcome)
    (h : ∀ j, ∃ r, f j = FetchOutcome.resp r ∧ r.ok = false ∧ r.status ≠ 404) :
    ∀ retries k, ∃ r, f (k + retries) = FetchOutcome.resp r ∧
      (fetchWithRetry f retries k).2.2 = FetchResult.returned r ∧ r.ok = false := by
  intro retries
  induction retries with
  | zero =>
    intro k
    obtain ⟨r, hf, hok, _⟩ := h k
    exact ⟨r, by simpa using hf, by simp [fetchWithRetry, hf], hok⟩
  | succ n ih =>
    intro k
    obtain ⟨r, hf, hok, h404⟩ := h k
    have hc : (!r.ok && r.status != 404) = true := by
      simp [hok, bne_iff_ne]
      exact h404
    obtain ⟨r₂, hf₂, hres₂, hok₂⟩ := ih (k + 1)
    refine ⟨r₂, ?_, ?_, hok₂⟩
    · rw [show k + (n + 1) = (k + 1) + n from by omega]
      exact hf₂
    · simp only [fetchWithRetry, hf, hc, if_true]
      exact hres₂

/-- With every attempt a network error, the exception propagates. -/
theorem fetchWithRetry_all_netError (f : Nat → FetchOutcome)
    (h : ∀ j, f j = FetchOutcome.netError) :
    ∀ retries k, (fetchWithRetry f retries k).2.2 = FetchResult.thrown := by
  intro retries
  induction retries with
  | zero => intro k; simp [fetchWithRetry, h k]
  | succ n ih =>
    intro k
    simp only [fetchWithRetry, h k]
    exact ih (k + 1)

/-! ## Claim theorems -/

/-- Claim C1: `fetchWithRetry` makes at most `MAX_RETRIES` retries after the
initial attempt; when every attempt yields a non-2xx non-404 response or a
network error it spends the budget exactly, waiting `RETRY_DELAY` before
each of the `MAX_RETRIES` retries; and a 404 response is returned
immediately, with no retry and no delay. -/
theorem fetchWithRetry_retry_bound (f : Nat → FetchOutcome) :
    (fetchWithRetryRun f).1 ≤ MAX_RETRIES + 1 ∧
    ((∀ j, shouldRetry (f j) = true) →
      (fetchWithRetryRun f).1 = MAX_RETRIES + 1 ∧
      (fetchWithRetryRun f).2.1 = MAX_RETRIES * RETRY_DELAY) ∧
    (∀ r, f 0 = FetchOutcome.resp r → r.status = 404 →
      fetchWithRetryRun f = (1, 0, FetchResult.returned r)) :=
  ⟨fetchWithRetry_attempts_le f MAX_RETRIES 0,
   fun h => fetchWithRetry_all_retry f h MAX_RETRIES 0,
   fun r hf h404 => fetchWithRetry_404_immediate f r 0 hf h404 MAX_RETRIES⟩

/-- Witness for C1: a network that always errors consumes the initial
attempt plus exactly `MAX_RETRIES` retries, and a first-attempt 404 is
handed back untouched. -/
theorem fetchWithRetry_retry_bound_witness :
    (fetchWithRetryRun (fun _ => FetchOutcome.netError)).1 = MAX_RETRIES + 1 ∧
    fetchWithRetryRun (fun _ => FetchOutcome.resp (Response.mk false 404 none)) =
      (1, 0, FetchResult.returned (Response.mk false 404 none)) :=
  ⟨((fetchWithRetry_retry_bound (fun _ => FetchOutcome.netError)).2.1 (fun _ => rfl)).1,
   (fetchWithRetry_retry_bound (fun _ => FetchOutcome.resp (Response.mk false 404 none))).2.2
     (Response.mk false 404 none) rfl rfl⟩

/-- Claim C10: an HTTP error status never makes `fetchWithRetry` raise — if
every attempt yields a non-2xx non-404 response, the final attempt's
response object (with `ok = false`) is returned after the budget is spent;
an exception propagates only when the final attempt itself was a network
error. -/
theorem fetchWithRetry_http_error_no_throw (f : Nat → FetchOutcome) :
    ((∀ j, ∃ r, f j = FetchOutcome.resp r ∧ r.ok = false ∧ r.status ≠ 404) →
      ∃ r, f MAX_RETRIES = FetchOutcome.resp r ∧
        (fetchWithRetryRun f).2.2 = FetchResult.returned r ∧ r.ok = false) ∧
    ((fetchWithRetryRun f).2.2 = FetchResult.thrown →
      f MAX_RETRIES = FetchOutcome.netError) := by
  constructor
  · intro h
    simpa [fetchWithRetryRun] using fetchWithRetry_last_resp f h MAX_RETRIES 0
  · intro h
    simpa using fetchWithRetry_thrown_net f MAX_RETRIES 0 h

/-- Witness for C10: a network that always answers 500 makes `fetchWithRetry`
return that response rather than raise. -/
theorem fetchWithRetry_http_error_no_throw_witness :
    (fetchWithRetryRun (fun _ => FetchOutcome.resp (Response.mk false 500 none))).2.2 =
      FetchResult.returned (Response.mk false 500 none) := by
  obtain ⟨r, hr, hres, -⟩ :=
    (fetchWithRetry_http_error_no_throw (fun _ => FetchOutcome.resp (Response.mk false 500 none))).1
      (fun _ => ⟨Response.mk false 500 none, rfl, rfl, by decide⟩)
  have he : Response.mk false 500 none = r := FetchOutcome.resp.inj hr
  rw [← he] at hres
  exact hres

/-- Claim C3: a successful `connect(address)` stores the address and the
deterministic token `web3auth_` + address, and `getToken()` then returns
exactly that token. -/
theorem connect_persists_session (a : String) (st : Storage) (h : a ≠ "") :
    ∃ st₂, connect a st = Except.ok st₂ ∧ st₂.walletAddress = some a ∧
      st₂.token = some ("web3auth_" ++ a) ∧ getToken st₂ = some ("web3auth_" ++ a) :=
  ⟨{ token := some ("web3auth_" ++ a), walletAddress := some a },
   by simp [connect, h], rfl, rfl, rfl⟩

/-- Witness for C3 at the address `0xabc`. -/
theorem connect_persists_session_witness :
    connect "0xabc" clearedStorage =
      Except.ok (Storage.mk (some "web3auth_0xabc") (some "0xabc")) ∧
    getToken (Storage.mk (some "web3auth_0xabc") (some "0xabc")) = some "web3auth_0xabc" := by
  obtain ⟨st₂, h1, -, -, h4⟩ := connect_persists_session "0xabc" clearedStorage (by decide)
  have h₀ : connect "0xabc" clearedStorage =
      Except.ok (Storage.mk (some "web3auth_0xabc") (some "0xabc")) := by rfl
  rw [h₀] at h1
  have he := Except.ok.inj h1
  rw [← he] at h4
  exact ⟨h₀, h4⟩

/-- Claim C4: from any starting session state, `disconnect()` clears both
local-storage keys and `getToken()` afterwards returns null; the wallet
module's `disconnectWallet()` does the same. -/
theorem disconnect_clears_session (st : Storage) :
    (disconnect st).token = none ∧ (disconnect st).walletAddress = none ∧
    getToken (disconnect st) = none ∧
    (disconnectWallet st).token = none ∧ (disconnectWallet st).walletAddress = none :=
  ⟨rfl, rfl, rfl, rfl, rfl⟩

/-- Claim C2, counterexample: with no injected provider,
`connectWallet("metamask")` raises the generic message
`No Web3 provider found. Please install a wallet.` — a message that never
mentions MetaMask and is identical for every wallet id, not a
MetaMask-specific not-installed message. -/
theorem connectWallet_metamask_message_counterexample :
    (connectWallet "metamask" none clearedStorage).1 =
      Except.error "No Web3 provider found. Please install a wallet." ∧
    strMentions "No Web3 provider found. Please install a wallet." "MetaMask" = false ∧
    (connectWallet "coinbase" none clearedStorage).1 =
      (connectWallet "metamask" none clearedStorage).1 ∧
    (connectWallet "metamask" none clearedStorage).1 ≠
      Except.error "Please install MetaMask to continue." := by
  refine ⟨rfl, by decide, rfl, ?_⟩
  intro h
  have := Except.error.inj h
  simp at this

/-- Claim C2 as amended: for every wallet id, `connectWallet` with no
injected provider fails with the generic install-a-wallet message and leaves
local storage untouched; the MetaMask-specific not-installed message is
raised exactly when a provider is present whose `isMetaMask` flag is unset. -/
theorem connectWallet_no_provider_fails_cleanly (walletId : String) (st : Storage) :
    ((connectWallet walletId none st).1 =
       Except.error "No Web3 provider found. Please install a wallet." ∧
     (connectWallet walletId none st).2 = st) ∧
    (∀ p : Provider, p.isMetaMask = false →
      (connectWallet "metamask" (some p) st).1 =
        Except.error "Please install MetaMask to continue." ∧
      (connectWallet "metamask" (some p) st).2 = st) := by
  refine ⟨⟨rfl, rfl⟩, ?_⟩
  intro p hp
  constructor
  · simp [connectWallet, getProvider, hp]
  · simp [connectWallet, getProvider, hp]

/-- Witness for the amended C2, at wallet id `metamask` with empty storage
and a provider carrying neither flag. -/
theorem connectWallet_no_provider_fails_cleanly_witness :
    (connectWallet "metamask" none clearedStorage).1 =
      Except.error "No Web3 provider found. Please install a wallet." ∧
    (connectWallet "metamask"
        (some (Provider.mk false false (RequestOutcome.accounts []))) clearedStorage).1 =
      Except.error "Please install MetaMask to continue." :=
  ⟨((connectWallet_no_provider_fails_cleanly "metamask" clearedStorage).1).1,
   (((connectWallet_no_provider_fails_cleanly "metamask" clearedStorage).2
       (Provider.mk false false (RequestOutcome.accounts []))) rfl).1⟩

/-- Claim C5: when the profile fetch's network call throws on every attempt,
`getUserProfile(address)` still returns a successful envelope holding the
fabricated profile: the requested wallet address, the placeholder username
and all four counters zero. -/
theorem getUserProfile_network_throw_fallback (address : String)
    (f : Nat → FetchOutcome) (h : ∀ j, f j = FetchOutcome.netError) :
    getUserProfile address f =
      ApiResponse.mk true (some (defaultProfile address)) none ∧
    (defaultProfile address).walletAddress = address ∧
    (defaultProfile address).stats = UserStats.mk 0 0 0 0 ∧
    (defaultProfile address).username = placeholderUsername address := by
  refine ⟨?_, rfl, rfl, rfl⟩
  have hthrown : (fetchWithRetryRun f).2.2 = FetchResult.thrown :=
    fetchWithRetry_all_netError f h MAX_RETRIES 0
  simp [getUserProfile, hthrown]

/-- Witness for C5 at the address `0xabc...` of the spec's scenario. -/
theorem getUserProfile_network_throw_fallback_witness :
    getUserProfile "0xabc..." (fun _ => FetchOutcome.netError) =
      ApiResponse.mk true (some (defaultProfile "0xabc...")) none ∧
    (defaultProfile "0xabc...").walletAddress = "0xabc..." ∧
    (defaultProfile "0xabc...").stats = UserStats.mk 0 0 0 0 := by
  obtain ⟨h1, h2, h3, -⟩ := getUserProfile_network_throw_fallback "0xabc..."
    (fun _ => FetchOutcome.netError) (fun _ => rfl)
  exact ⟨h1, h2, h3⟩

/-- Claim C6, counterexample: one `accountsChanged` event with a non-empty
account list, fired in the disconnected state, writes `walletAddress`
without writing `token`, so the two keys are not always set together. -/
theorem session_pairing_counterexample :
    ¬ tokenAddrInvariant (runOps clearedStorage [SessionOp.accountsChangedOp ["0xb"]]) := by
  unfold tokenAddrInvariant
  decide

/-- Each session operation other than a non-empty `accountsChanged` event
keeps the two keys paired. -/
theorem applyOp_pairing (st : Storage) (op : SessionOp)
    (hst : tokenAddrInvariant st) (hop : preservesPairing op = true) :
    tokenAddrInvariant (applyOp st op) := by
  cases op with
  | connectOp a =>
    by_cases h : a = ""
    · simpa [applyOp, connect, h] using hst
    · simp [applyOp, connect, h, tokenAddrInvariant]
  | disconnectOp => simp [applyOp, disconnect, tokenAddrInvariant]
  | accountsChangedOp accounts =>
    cases accounts with
    | nil => simp [applyOp, tokenAddrInvariant]
    | cons a l => simp [preservesPairing] at hop
  | providerDisconnectOp => simp [applyOp, tokenAddrInvariant]

/-- Pairing is preserved along any run of pairing-preserving operations. -/
theorem runOps_pairing (ops : List SessionOp) :
    ∀ st, tokenAddrInvariant st → (∀ op ∈ ops, preservesPairing op = true) →
      tokenAddrInvariant (runOps st ops) := by
  induction ops with
  | nil =>
    intro st hst _
    simpa [runOps] using hst
  | cons op rest ih =>
    intro st hst h
    have h₁ := h op (List.mem_cons_self op rest)
    have h₂ : ∀ o ∈ rest, preservesPairing o = true :=
      fun o ho => h o (List.mem_cons_of_mem op ho)
    simpa [runOps] using ih (applyOp st op) (applyOp_pairing st op hst h₁) h₂

/-- Claim C6 as amended: in every state reachable from the disconnected
state via `connect`, `disconnect`, the provider-disconnect handler and the
empty-account-list `accountsChanged` handler, the `token` key is present iff
the `walletAddress` key is; the excluded non-empty `accountsChanged` handler
is the one operation that breaks the pairing (it writes `walletAddress`
alone). -/
theorem session_pairing_invariant_amended (ops : List SessionOp)
    (h : ∀ op ∈ ops, preservesPairing op = true) :
    tokenAddrInvariant (runOps clearedStorage ops) :=
  runOps_pairing ops clearedStorage rfl h

/-- Witness for the amended C6 on a concrete run. -/
theorem session_pairing_invariant_amended_witness :
    tokenAddrInvariant (runOps clearedStorage
      [SessionOp.connectOp "0xa", SessionOp.accountsChangedOp [], SessionOp.disconnectOp]) :=
  session_pairing_invariant_amended
    [SessionOp.connectOp "0xa", SessionOp.accountsChangedOp [], SessionOp.disconnectOp]
    (by decide)

/-- Claim C7: an `accountsChanged` event carrying an empty account list makes
the registered handler remove both session keys, leaving the fully cleared
storage state whatever was stored before. -/
theorem accountsChanged_empty_clears_session (st : Storage) :
    applyOp st (SessionOp.accountsChangedOp []) = clearedStorage ∧
    (applyOp st (SessionOp.accountsChangedOp [])).token = none ∧
    (applyOp st (SessionOp.accountsChangedOp [])).walletAddress = none :=
  ⟨rfl, rfl, rfl⟩

/-- Claim C8: when the three jointly-awaited facade results for an address
include a failure, the combined fetch aborts with the first error in the
fixed order profile, inventory, activity, and none of the three data fields
of the shared state changes; the three fields are published exactly when all
three results report success. -/
theorem fetchUserData_first_error_wins (st : UserDataState) (a : String)
    (pRes : ApiResponse UserProfileData) (iRes : ApiResponse InventoryData)
    (aRes : ApiResponse ActivityData) :
    ((pRes.success = false ∨ iRes.success = false ∨ aRes.success = false) →
      (fetchUserData st (some a) pRes iRes aRes).profile = st.profile ∧
      (fetchUserData st (some a) pRes iRes aRes).inventory = st.inventory ∧
      (fetchUserData st (some a) pRes iRes aRes).activities = st.activities ∧
      (fetchUserData st (some a) pRes iRes aRes).error =
        some (jsErrorMessage (jsOrOpt (jsOrOpt pRes.error iRes.error) aRes.error)) ∧
      (fetchUserData st (some a) pRes iRes aRes).isLoading = false) ∧
    (pRes.success = true → iRes.success = true → aRes.success = true →
      ∀ act, aRes.data = some act →
        fetchUserData st (some a) pRes iRes aRes =
          UserDataState.mk pRes.data iRes.data act.activities false none) := by
  constructor
  · intro h
    have hcond : (pRes.success && iRes.success && aRes.success) = false := by
      rcases h with h | h | h <;> simp [h]
    simp [fetchUserData, hcond]
  · intro hp hi ha act hact
    simp [fetchUserData, hp, hi, ha, hact]

/-- Witness for C8: a failed profile result leaves the data untouched and
records its error; three successes publish the payloads. -/
theorem fetchUserData_first_error_wins_witness :
    (fetchUserData (UserDataState.mk none none [] false none) (some "0xa")
        (ApiResponse.mk false none (some "profile failed"))
        (ApiResponse.mk true none none)
        (ApiResponse.mk true (some (ActivityData.mk [])) none)).error =
      some "profile failed" ∧
    fetchUserData (UserDataState.mk none none [] false none) (some "0xa")
        (ApiResponse.mk true (some (defaultProfile "0xa")) none)
        (ApiResponse.mk true (some (InventoryData.mk [] [] [])) none)
        (ApiResponse.mk true (some (ActivityData.mk [])) none) =
      UserDataState.mk (some (defaultProfile "0xa"))
        (some (InventoryData.mk [] [] [])) [] false none := by
  constructor
  · have h₂ := ((fetchUserData_first_error_wins (UserDataState.mk none none [] false none) "0xa"
        (ApiResponse.mk false none (some "profile failed"))
        (ApiResponse.mk true none none)
        (ApiResponse.mk true (some (ActivityData.mk [])) none)).1 (Or.inl rfl)).2.2.2.1
    rw [h₂]
    decide
  · exact (fetchUserData_first_error_wins (UserDataState.mk none none [] false none) "0xa"
      (ApiResponse.mk true (some (defaultProfile "0xa")) none)
      (ApiResponse.mk true (some (InventoryData.mk [] [] [])) none)
      (ApiResponse.mk true (some (ActivityData.mk [])) none)).2
        rfl rfl rfl (ActivityData.mk []) rfl

/-- Claim C9, counterexample: it is not the case that a request built with
`getAuthHeaders` carries no bearer value when no token is stored — with the
`token` key absent its `Authorization` header is the template-literal
artifact `Bearer null`, a bearer header carrying the credential string
`null`. -/
theorem bearer_header_counterexample :
    ¬ (∀ st : Storage, st.token = none →
        ∀ c : String, (getAuthHeaders st).authorization ≠ "Bearer " ++ c) := by
  intro hclaim
  exact hclaim clearedStorage rfl "null" rfl

/-- Claim C9 as amended: with a stored non-empty token `t` both header
builders attach `Bearer t`; with a stored empty-string token (falsy in JS)
`authenticatedFetch` attaches the empty string while `getAuthHeaders`
attaches `Bearer `; with no stored token `authenticatedFetch` attaches the
empty string (no bearer value), while `getAuthHeaders` still attaches the
literal `Bearer null`. -/
theorem bearer_header_attachment (st : Storage) :
    (∀ t, st.token = some t → t ≠ "" →
      authenticatedFetchAuthHeader st = "Bearer " ++ t ∧
      (getAuthHeaders st).authorization = "Bearer " ++ t) ∧
    (st.token = some "" →
      authenticatedFetchAuthHeader st = "" ∧
      (getAuthHeaders st).authorization = "Bearer ") ∧
    (st.token = none →
      authenticatedFetchAuthHeader st = "" ∧
      (getAuthHeaders st).authorization = "Bearer null") := by
  refine ⟨?_, ?_, ?_⟩
  · intro t ht hne
    exact ⟨by simp [authenticatedFetchAuthHeader, ht, hne],
           by simp [getAuthHeaders, jsInterp, ht]⟩
  · intro ht
    exact ⟨by simp [authenticatedFetchAuthHeader, ht],
           by simp [getAuthHeaders, jsInterp, ht]⟩
  · intro ht
    exact ⟨by simp [authenticatedFetchAuthHeader, ht],
           by simp [getAuthHeaders, jsInterp, ht]⟩

/-- Witness for the amended C9 with a non-empty stored token, an
empty-string stored token, and no token. -/
theorem bearer_header_attachment_witness :
    authenticatedFetchAuthHeader (Storage.mk (some "tok0") (some "0xa")) = "Bearer tok0" ∧
    authenticatedFetchAuthHeader (Storage.mk (some "") (some "0xa")) = "" ∧
    authenticatedFetchAuthHeader clearedStorage = "" := by
  refine ⟨?_, ?_, ?_⟩
  · have h := ((bearer_header_attachment (Storage.mk (some "tok0") (some "0xa"))).1
      "tok0" rfl (by decide)).1
    rw [h]
    decide
  · exact ((bearer_header_attachment (Storage.mk (some "") (some "0xa"))).2.1 rfl).1
  · exact ((bearer_header_attachment clearedStorage).2.2 rfl).1

end Evrlink
